import Mathlib

/-!
Shallow embedding of the per-pixel algorithmic contract of the
MCD10A1 snow-phenology script (src/MCD10A1.js), a Google Earth Engine
pipeline that fuses Terra and Aqua daily fractional snow-cover streams,
encodes threshold-crossing day-of-year (DOY) events, reduces each year to
melt/accumulation scalars, and derives season-length and trend masks.

Cells are modelled as `Option Int`: `none` is a masked (no-data) pixel,
`some v` a valid reading `v`.  All image operations in the script act
cell-wise and independently per pixel, so every definition below is the
per-cell transform of the corresponding JavaScript function.
-/

namespace MCD10A1

/-- A pixel cell: `none` is a masked (no-data) cell, `some v` a valid value. -/
abbrev Cell := Option Int

/-- Cell-wise recode `'b1 == 0 ? -10 : b1'` used in `maxVal`
(src/MCD10A1.js lines 45-53).  `ee.Image.expression` propagates masks,
so a masked cell stays masked. -/
def recodeZero (c : Cell) : Cell :=
  c.map (fun v => if v = 0 then -10 else v)

/-- `unmask(fill)`: replace a masked cell by `fill` (GEE `Image.unmask`). -/
def unmask (fill : Int) (c : Cell) : Int :=
  c.getD fill

/-- The Stream Fuser `maxVal` (src/MCD10A1.js lines 36-73), per cell:
recode literal 0 to -10 in both bands, unmask both to 0, take the maximum,
re-mask cells whose maximum is 0 (`updateMask(maxval.neq(0))`), then recode
a surviving -10 back to 0 (`'b1 == -10 ? 0 : b1'`). -/
def maxVal (a b : Cell) : Cell :=
  let m := max (unmask 0 (recodeZero a)) (unmask 0 (recodeZero b))
  let remasked : Cell := if m = 0 then none else some m
  remasked.map (fun v => if v = -10 then 0 else v)

/-- The 1-based day-of-year used by the Event Encoder:
`ee.Date(t).difference(start, 'day').add(1)` (src/MCD10A1.js line 106),
with timestamps at day granularity. -/
def doyOf (start d : Nat) : Int :=
  (d : Int) - (start : Int) + 1

/-- First stage of `returnDoy` (src/MCD10A1.js lines 109-113):
`'SNOW <= 5 ? DOY : 9999'`, mask-propagating. -/
def doyReplacement (doy : Int) (snow : Cell) : Cell :=
  snow.map (fun s => if s ≤ 5 then doy else 9999)

/-- The Event Encoder `returnDoy` (src/MCD10A1.js lines 103-118), per cell:
emit the DOY where snow cover is at most 5 percent, the sentinel 9999
otherwise, then mask every sentinel cell (`updateMask(replacement.neq(9999))`). -/
def returnDoy (doy : Int) (snow : Cell) : Cell :=
  (doyReplacement doy snow).bind (fun v => if v = 9999 then none else some v)

/-- `ee.Reducer.minMax()` over a per-cell column of the year's DOY images
(src/MCD10A1.js line 205): the (min, max) of the unmasked values, masked
when no value is unmasked. -/
def minMaxReduce (xs : List Cell) : Option (Int × Int) :=
  match xs.filterMap id with
  | [] => none
  | v :: vs => some (vs.foldl min v, vs.foldl max v)

/-- The Year Reducer `snowMeltAcc` (src/MCD10A1.js lines 204-205):
`reduce(ee.Reducer.minMax()).unmask(366)` — per-cell (melt, acc) =
(min DOY, max DOY) over qualifying days, both 366 when there are none. -/
def snowMeltAcc (xs : List Cell) : Int × Int :=
  (minMaxReduce xs).getD (366, 366)

/-- `difference` (src/MCD10A1.js lines 94-100): per cell
`snowacc − snowmelt` (`b2.subtract(b1)` with b1 = snowmelt, b2 = snowacc). -/
def difference (snowmelt snowacc : Int) : Int :=
  snowacc - snowmelt

/-- One year's fused series for a cell: apply `maxVal` to each
(timestamp, sensor A, sensor B) day triple (src/MCD10A1.js line 173). -/
def fuseSeries (days : List (Nat × Cell × Cell)) : List (Nat × Cell) :=
  days.map (fun d => (d.1, maxVal d.2.1 d.2.2))

/-- One year's event series for a cell: apply `returnDoy` with the DOY
relative to `start` to each fused day (src/MCD10A1.js line 201). -/
def encodeSeries (start : Nat) (fused : List (Nat × Cell)) : List (Nat × Cell) :=
  fused.map (fun d => (d.1, returnDoy (doyOf start d.1) d.2))

/-- The full per-cell year pipeline: fuse the two sensor streams, encode
DOY events, reduce to the (melt, acc) scalars (src/MCD10A1.js lines 173-205). -/
def processYearCell (start : Nat) (days : List (Nat × Cell × Cell)) : Int × Int :=
  snowMeltAcc ((encodeSeries start (fuseSeries days)).map Prod.snd)

/-- `ee.Join.inner` on the year-tagged melt and acc stacks
(src/MCD10A1.js line 247) with `filterTimeEq`: each primary entry is paired
with every secondary entry carrying an equal year tag. -/
def innerJoinYears : List (Nat × Int) → List (Nat × Int) → List (Nat × Int × Int)
  | [], _ => []
  | p :: ps, ss =>
      ((ss.filter (fun s => s.1 == p.1)).map (fun s => (p.1, p.2, s.2)))
        ++ innerJoinYears ps ss

/-- The season-length series `snowFree` (src/MCD10A1.js lines 247-253):
join the melt and acc stacks by year tag, then take `difference` per pair. -/
def snowFreeSeries (melts accs : List (Nat × Int)) : List (Nat × Int) :=
  (innerJoinYears melts accs).map (fun j => (j.1, difference j.2.1 j.2.2))

/-- `snowFreeMask` (src/MCD10A1.js lines 259-260): `snowFreeMedian.lt(306)`,
a 0/1 raster with value 1 where the median season length is below 306. -/
def snowFreeMask (snowFreeMedian : Int) : Int :=
  if snowFreeMedian < 306 then 1 else 0

/-- `waterMask` (src/MCD10A1.js line 277): `datamask.eq(1)`, a 0/1 raster
with value 1 on land. -/
def waterMask (datamask : Int) : Int :=
  if datamask = 1 then 1 else 0

/-- The final mask (src/MCD10A1.js line 281):
`waterMask.multiply(snowFreeMask)`. -/
def finalMask (datamask snowFreeMedian : Int) : Int :=
  waterMask datamask * snowFreeMask snowFreeMedian

/-- `linearFit.mask(mask)` (src/MCD10A1.js line 286), per cell: a cell is
kept where the mask is nonzero and masked out where the mask is 0. -/
def applyMask (m v : Int) : Cell :=
  if m = 0 then none else some v

/-- An image as the script handles it: a `system:time_start` property plus
a grid of cells (modelled as a list, per-cell ops are positional). -/
structure EEImage where
  time : Nat
  cells : List Cell

/-- A joined Terra/Aqua feature: two same-grid bands; `ee.Image.cat`
(`concatBands`, src/MCD10A1.js lines 122-124) keeps the metadata of the
primary (Terra) image, so the joined feature carries the primary's time. -/
structure JoinedImage where
  time : Nat
  bandA : List Cell
  bandB : List Cell

/-- `concatBands` (src/MCD10A1.js lines 122-124): stick the primary and
secondary images together; metadata comes from the primary. -/
def concatBands (a b : EEImage) : JoinedImage :=
  { time := a.time, bandA := a.cells, bandB := b.cells }

/-- Image-level `maxVal` (src/MCD10A1.js lines 36-73): apply the per-cell
fusion to both bands and set `system:time_start` to the start time read
from the input image (`img.select('NDSI_Snow_Cover').get('system:time_start')`). -/
def maxValImg (img : JoinedImage) : EEImage :=
  { time := img.time, cells := List.zipWith maxVal img.bandA img.bandB }

/-! ## Helper lemmas on foldl min / foldl max -/

theorem foldl_min_le_init (v : Int) (vs : List Int) : vs.foldl min v ≤ v := by
  induction vs generalizing v with
  | nil => simp
  | cons w ws ih =>
      calc (w :: ws).foldl min v = ws.foldl min (min v w) := rfl
        _ ≤ min v w := ih (min v w)
        _ ≤ v := min_le_left v w

theorem init_le_foldl_max (v : Int) (vs : List Int) : v ≤ vs.foldl max v := by
  induction vs generalizing v with
  | nil => simp
  | cons w ws ih =>
      calc v ≤ max v w := le_max_left v w
        _ ≤ ws.foldl max (max v w) := ih (max v w)
        _ = (w :: ws).foldl max v := rfl

theorem foldl_min_le_mem (v : Int) (vs : List Int) :
    ∀ x ∈ vs, vs.foldl min v ≤ x := by
  induction vs generalizing v with
  | nil => simp
  | cons w ws ih =>
      intro x hx
      rcases List.mem_cons.mp hx with hx | hx
      · subst hx
        calc (x :: ws).foldl min v = ws.foldl min (min v x) := rfl
          _ ≤ min v x := foldl_min_le_init _ _
          _ ≤ x := min_le_right v x
      · exact ih (min v w) x hx

theorem mem_le_foldl_max (v : Int) (vs : List Int) :
    ∀ x ∈ vs, x ≤ vs.foldl max v := by
  induction vs generalizing v with
  | nil => simp
  | cons w ws ih =>
      intro x hx
      rcases List.mem_cons.mp hx with hx | hx
      · subst hx
        calc x ≤ max v x := le_max_right v x
          _ ≤ ws.foldl max (max v x) := init_le_foldl_max _ _
          _ = (x :: ws).foldl max v := rfl
      · exact ih (max v w) x hx

theorem foldl_min_mem (v : Int) (vs : List Int) :
    vs.foldl min v = v ∨ vs.foldl min v ∈ vs := by
  induction vs generalizing v with
  | nil => left; rfl
  | cons w ws ih =>
      rcases ih (min v w) with h | h
      · rcases min_choice v w with hc | hc
        · left
          calc (w :: ws).foldl min v = ws.foldl min (min v w) := rfl
            _ = min v w := h
            _ = v := hc
        · right
          apply List.mem_cons.mpr
          left
          calc (w :: ws).foldl min v = ws.foldl min (min v w) := rfl
            _ = min v w := h
            _ = w := hc
      · right
        exact List.mem_cons.mpr (Or.inr h)

theorem foldl_max_mem (v : Int) (vs : List Int) :
    vs.foldl max v = v ∨ vs.foldl max v ∈ vs := by
  induction vs generalizing v with
  | nil => left; rfl
  | cons w ws ih =>
      rcases ih (max v w) with h | h
      · rcases max_choice v w with hc | hc
        · left
          calc (w :: ws).foldl max v = ws.foldl max (max v w) := rfl
            _ = max v w := h
            _ = v := hc
        · right
          apply List.mem_cons.mpr
          left
          calc (w :: ws).foldl max v = ws.foldl max (max v w) := rfl
            _ = max v w := h
            _ = w := hc
      · right
        exact List.mem_cons.mpr (Or.inr h)

/-- The per-cell melt scalar never exceeds the per-cell acc scalar:
the reducer takes min and max of the same set, and the unmask fill is
the same 366 in both bands. -/
theorem snowMeltAcc_fst_le_snd (xs : List Cell) :
    (snowMeltAcc xs).1 ≤ (snowMeltAcc xs).2 := by
  unfold snowMeltAcc minMaxReduce
  cases h : xs.filterMap id with
  | nil => simp
  | cons v vs =>
      simp only [Option.getD_some]
      calc vs.foldl min v ≤ v := foldl_min_le_init v vs
        _ ≤ vs.foldl max v := init_le_foldl_max v vs

/-! ## Helper lemmas on the year-tag inner join -/

theorem filter_tag_map_eq_nil (g : Nat → Int) (y : Nat) (zs : List Nat)
    (h : y ∉ zs) :
    (zs.map (fun z => (z, g z))).filter (fun s => s.1 == y) = [] := by
  induction zs with
  | nil => rfl
  | cons z zs ih =>
      have hzy : z ≠ y := fun hzy => h (hzy ▸ List.mem_cons_self z zs)
      have hy : y ∉ zs := fun hy => h (List.mem_cons_of_mem z hy)
      simp only [List.map_cons, List.filter_cons]
      rw [if_neg (by simpa using hzy)]
      exact ih hy

theorem filter_tag_map_nodup (g : Nat → Int) (y : Nat) (ys : List Nat)
    (h : ys.Nodup) (hy : y ∈ ys) :
    (ys.map (fun z => (z, g z))).filter (fun s => s.1 == y) = [(y, g y)] := by
  induction ys with
  | nil => cases hy
  | cons z zs ih =>
      rcases List.nodup_cons.mp h with ⟨hz, hzs⟩
      rcases List.mem_cons.mp hy with hyz | hyz
      · subst hyz
        simp only [List.map_cons, List.filter_cons]
        rw [if_pos (by simp)]
        rw [filter_tag_map_eq_nil g y zs hz]
      · have hzy : z ≠ y := fun hzy => hz (hzy ▸ hyz)
        simp only [List.map_cons, List.filter_cons]
        rw [if_neg (by simpa using hzy)]
        exact ih hzs hyz

theorem innerJoinYears_aligned (f g : Nat → Int) (ps ys : List Nat)
    (h : ys.Nodup) (hsub : ∀ y ∈ ps, y ∈ ys) :
    innerJoinYears (ps.map fun y => (y, f y)) (ys.map fun y => (y, g y))
      = ps.map (fun y => (y, f y, g y)) := by
  induction ps with
  | nil => rfl
  | cons p ps ih =>
      have hp : p ∈ ys := hsub p (List.mem_cons_self p ps)
      have hsub2 : ∀ y ∈ ps, y ∈ ys := fun y hy => hsub y (List.mem_cons_of_mem p hy)
      simp only [List.map_cons, innerJoinYears]
      rw [filter_tag_map_nodup g p ys h hp]
      simp only [List.map_cons, List.map_nil, List.singleton_append]
      rw [ih hsub2]

/-! ## Helper lemmas on all-masked input -/

theorem snowMeltAcc_none_cons (l : List Cell) :
    snowMeltAcc (none :: l) = snowMeltAcc l := by
  simp [snowMeltAcc, minMaxReduce, List.filterMap_cons]

theorem processYearCell_all_masked (start : Nat)
    (days : List (Nat × Cell × Cell))
    (h : ∀ d ∈ days, d.2.1 = none ∧ d.2.2 = none) :
    processYearCell start days = (366, 366) := by
  induction days with
  | nil => rfl
  | cons d ds ih =>
      rcases h d (List.mem_cons_self d ds) with ⟨h1, h2⟩
      have hfused : maxVal d.2.1 d.2.2 = none := by rw [h1, h2]; rfl
      have henc : returnDoy (doyOf start d.1) (maxVal d.2.1 d.2.2) = none := by
        rw [hfused]; rfl
      have hds : ∀ x ∈ ds, x.2.1 = none ∧ x.2.2 = none :=
        fun x hx => h x (List.mem_cons_of_mem d hx)
      calc processYearCell start (d :: ds)
          = snowMeltAcc (returnDoy (doyOf start d.1) (maxVal d.2.1 d.2.2)
              :: (encodeSeries start (fuseSeries ds)).map Prod.snd) := rfl
        _ = snowMeltAcc (none :: (encodeSeries start (fuseSeries ds)).map Prod.snd) := by
              rw [henc]
        _ = snowMeltAcc ((encodeSeries start (fuseSeries ds)).map Prod.snd) :=
              snowMeltAcc_none_cons _
        _ = processYearCell start ds := rfl
        _ = (366, 366) := ih hds

theorem fuseSeries_all_masked (days : List (Nat × Cell × Cell))
    (h : ∀ d ∈ days, d.2.1 = none ∧ d.2.2 = none) :
    fuseSeries days = days.map (fun d => (d.1, (none : Cell))) := by
  induction days with
  | nil => rfl
  | cons d ds ih =>
      rcases h d (List.mem_cons_self d ds) with ⟨h1, h2⟩
      have hfused : maxVal d.2.1 d.2.2 = none := by rw [h1, h2]; rfl
      have hds : ∀ x ∈ ds, x.2.1 = none ∧ x.2.2 = none :=
        fun x hx => h x (List.mem_cons_of_mem d hx)
      simp only [fuseSeries, List.map_cons] at ih ⊢
      rw [hfused, ih hds]

/-! ## Claim theorems -/

/-- Claim C1 (evidence of the code bug): the spec promises that a valid
zero reading from one sensor survives fusion when the other sensor is
masked, but `maxVal` recodes the valid 0 to -10, unmasks the missing
sensor to 0, and `max (-10) 0 = 0` is then re-masked by
`updateMask(maxval.neq(0))` — so the fused cell is masked, not 0.  When
both sensors read a valid 0 the -10 survives the max and the cell is
correctly restored to an unmasked 0. -/
theorem maxVal_valid_zero_vs_masked_is_masked :
    maxVal (some 0) none = none ∧ maxVal none (some 0) = none ∧
    maxVal (some 0) (some 0) = some 0 := by decide

/-- Claim C2: per day `d` of a year starting at `start`, the Event Encoder
emits the 1-based day-of-year `doyOf start d = d - start + 1` as the cell
value when the cell's cover is at most 5, otherwise emits the sentinel
9999, and then masks every sentinel cell, so only qualifying snow-free
days remain unmasked (masked cover cells stay masked). -/
theorem returnDoy_emits_doy_below_threshold (start d : Nat) (c : Int)
    (h1 : start ≤ d) (h2 : d + 1 ≤ start + 366) :
    doyReplacement (doyOf start d) (some c)
        = some (if c ≤ 5 then doyOf start d else 9999) ∧
    returnDoy (doyOf start d) (some c)
        = (if c ≤ 5 then some (doyOf start d) else none) ∧
    returnDoy (doyOf start d) none = none ∧
    1 ≤ doyOf start d ∧ doyOf start d ≤ 366 := by
  have hlow : 1 ≤ doyOf start d := by unfold doyOf; omega
  have hhigh : doyOf start d ≤ 366 := by unfold doyOf; omega
  have hne : doyOf start d ≠ 9999 := by omega
  refine ⟨rfl, ?_, rfl, hlow, hhigh⟩
  by_cases hc : c ≤ 5
  · simp [returnDoy, doyReplacement, hc, hne]
  · simp [returnDoy, doyReplacement, hc]

/-- Witness for claim C2 at start = 0, day = 2, cover = 3. -/
theorem returnDoy_emits_doy_below_threshold_witness :
    (0 : Nat) ≤ 2 ∧ 2 + 1 ≤ 0 + 366 ∧
    returnDoy (doyOf 0 2) (some 3)
      = (if (3 : Int) ≤ 5 then some (doyOf 0 2) else none) :=
  ⟨by decide, by decide,
    (returnDoy_emits_doy_below_threshold 0 2 3 (by decide) (by decide)).2.1⟩

/-- Claim C3: the Year Reducer's melt is the minimum and its acc the
maximum DOY over the cell's unmasked qualifying days, and both are the
sentinel 366 when the cell has no qualifying day in the year. -/
theorem snowMeltAcc_is_min_and_max (xs : List Cell) :
    (xs.filterMap id = [] → snowMeltAcc xs = (366, 366)) ∧
    (xs.filterMap id ≠ [] →
      ((snowMeltAcc xs).1 ∈ xs.filterMap id ∧
        ∀ x ∈ xs.filterMap id, (snowMeltAcc xs).1 ≤ x) ∧
      ((snowMeltAcc xs).2 ∈ xs.filterMap id ∧
        ∀ x ∈ xs.filterMap id, x ≤ (snowMeltAcc xs).2)) := by
  constructor
  · intro h
    simp [snowMeltAcc, minMaxReduce, h]
  · intro h
    cases hv : xs.filterMap id with
    | nil => exact absurd hv h
    | cons v vs =>
        have h1 : (snowMeltAcc xs).1 = vs.foldl min v := by
          simp [snowMeltAcc, minMaxReduce, hv]
        have h2 : (snowMeltAcc xs).2 = vs.foldl max v := by
          simp [snowMeltAcc, minMaxReduce, hv]
        rw [h1, h2]
        refine ⟨⟨?_, ?_⟩, ?_, ?_⟩
        · rcases foldl_min_mem v vs with he | he
          · rw [he]; exact List.mem_cons_self v vs
          · exact List.mem_cons_of_mem v he
        · intro x hx
          rcases List.mem_cons.mp hx with hx | hx
          · rw [hx]; exact foldl_min_le_init v vs
          · exact foldl_min_le_mem v vs x hx
        · rcases foldl_max_mem v vs with he | he
          · rw [he]; exact List.mem_cons_self v vs
          · exact List.mem_cons_of_mem v he
        · intro x hx
          rcases List.mem_cons.mp hx with hx | hx
          · rw [hx]; exact init_le_foldl_max v vs
          · exact mem_le_foldl_max v vs x hx

/-- Witness for claim C3 on the column [some 10, none, some 3]:
melt is 3 (the minimum) and acc is 10 (the maximum); and on an
all-masked column the reducer yields (366, 366). -/
theorem snowMeltAcc_is_min_and_max_witness :
    (([some 10, none, some 3] : List Cell).filterMap id ≠ [] ∧
      (snowMeltAcc [some 10, none, some 3]).1 ∈
        ([some 10, none, some 3] : List Cell).filterMap id ∧
      (snowMeltAcc [some 10, none, some 3]).2 ∈
        ([some 10, none, some 3] : List Cell).filterMap id) ∧
    (([none, none] : List Cell).filterMap id = [] ∧
      snowMeltAcc [none, none] = (366, 366)) :=
  ⟨⟨by decide,
    (((snowMeltAcc_is_min_and_max [some 10, none, some 3]).2 (by decide)).1).1,
    (((snowMeltAcc_is_min_and_max [some 10, none, some 3]).2 (by decide)).2).1⟩,
   ⟨by decide, (snowMeltAcc_is_min_and_max [none, none]).1 (by decide)⟩⟩

/-- Claim C4: for every per-cell year column, either the cell had at
least one qualifying day and then melt is at most acc, or melt and acc
both equal the sentinel 366. -/
theorem melt_le_acc_or_sentinel (xs : List Cell) :
    (xs.filterMap id ≠ [] ∧ (snowMeltAcc xs).1 ≤ (snowMeltAcc xs).2) ∨
    ((snowMeltAcc xs).1 = 366 ∧ (snowMeltAcc xs).2 = 366) := by
  cases hv : xs.filterMap id with
  | nil =>
      right
      have h : snowMeltAcc xs = (366, 366) := by
        simp [snowMeltAcc, minMaxReduce, hv]
      rw [h]
      exact ⟨rfl, rfl⟩
  | cons v vs =>
      left
      exact ⟨List.cons_ne_nil v vs, snowMeltAcc_fst_le_snd xs⟩

/-- Claim C5 counterexample: the Event Encoder is not idempotent.  On a
day with DOY 10 and cover 3 the encoder emits the DOY value 10; running
the encoder again reads that 10 as a cover value, 10 > 5, so the cell is
re-masked instead of left unchanged. -/
theorem eventEncoder_not_idempotent :
    returnDoy 10 (returnDoy 10 (some 3)) ≠ returnDoy 10 (some 3) := by decide

/-- Claim C5 amended: re-running the Event Encoder on an already-encoded
cell re-masks every cell whose stored DOY value exceeds the threshold 5
and keeps the rest, so the result equals the input only when every
unmasked DOY is at most 5. -/
theorem eventEncoder_reencode (doy : Int) (c : Cell)
    (h1 : 1 ≤ doy) (h2 : doy ≤ 366) :
    returnDoy doy (returnDoy doy c)
      = (returnDoy doy c).bind (fun v => if v ≤ 5 then some v else none) := by
  have hne : doy ≠ 9999 := by omega
  cases c with
  | none => rfl
  | some s =>
      by_cases hs : s ≤ 5
      · by_cases hd : doy ≤ 5 <;> simp [returnDoy, doyReplacement, hs, hd, hne]
      · simp [returnDoy, doyReplacement, hs]

/-- Witness for the amended claim C5 at DOY 10 and cover 3. -/
theorem eventEncoder_reencode_witness :
    (1 : Int) ≤ 10 ∧ (10 : Int) ≤ 366 ∧
    returnDoy 10 (returnDoy 10 (some 3))
      = (returnDoy 10 (some 3)).bind (fun v => if v ≤ 5 then some v else none) :=
  ⟨by decide, by decide, eventEncoder_reencode 10 (some 3) (by decide) (by decide)⟩

/-- Claim C6: for every list of distinct year tags, joining the melt and
acc stacks built from the same per-year pipeline by year tag and taking
`difference` per pair reproduces, year by year, exactly
`acc − melt` recomputed independently from the same raw daily series. -/
theorem snowFree_roundtrip (ys : List Nat) (startOf : Nat → Nat)
    (data : Nat → List (Nat × Cell × Cell)) (h : ys.Nodup) :
    snowFreeSeries
        (ys.map fun y => (y, (processYearCell (startOf y) (data y)).1))
        (ys.map fun y => (y, (processYearCell (startOf y) (data y)).2))
      = ys.map (fun y =>
          (y, (processYearCell (startOf y) (data y)).2
                - (processYearCell (startOf y) (data y)).1)) := by
  unfold snowFreeSeries
  rw [innerJoinYears_aligned (fun y => (processYearCell (startOf y) (data y)).1)
        (fun y => (processYearCell (startOf y) (data y)).2) ys ys h (fun y hy => hy)]
  rw [List.map_map]
  rfl

/-- Witness for claim C6 on the two-year stack [2003, 2004] with one
valid day per year. -/
theorem snowFree_roundtrip_witness :
    ([2003, 2004] : List Nat).Nodup ∧
    snowFreeSeries
        (([2003, 2004] : List Nat).map fun y =>
          (y, (processYearCell y [(y, some 3, some 0)]).1))
        (([2003, 2004] : List Nat).map fun y =>
          (y, (processYearCell y [(y, some 3, some 0)]).2))
      = ([2003, 2004] : List Nat).map (fun y =>
          (y, (processYearCell y [(y, some 3, some 0)]).2
                - (processYearCell y [(y, some 3, some 0)]).1)) :=
  ⟨by decide,
    snowFree_roundtrip [2003, 2004] (fun y => y)
      (fun y => [(y, some 3, some 0)]) (by decide)⟩

/-- Claim C7: a cell masked on every day of both sensors all year fuses
to an entirely masked series, the Year Reducer yields melt = acc = 366,
the season length is 0, and since 0 < 306 the `snowFreeMask` check alone
does not exclude that cell (mask value 1 keeps it). -/
theorem allMasked_year_sentinels (start : Nat) (days : List (Nat × Cell × Cell))
    (h : ∀ d ∈ days, d.2.1 = none ∧ d.2.2 = none) :
    fuseSeries days = days.map (fun d => (d.1, (none : Cell))) ∧
    processYearCell start days = (366, 366) ∧
    difference (processYearCell start days).1 (processYearCell start days).2 = 0 ∧
    snowFreeMask 0 = 1 := by
  have hproc := processYearCell_all_masked start days h
  refine ⟨fuseSeries_all_masked days h, hproc, ?_, by decide⟩
  rw [hproc]
  rfl

/-- Witness for claim C7 on a one-day year whose single day is masked in
both sensors. -/
theorem allMasked_year_sentinels_witness :
    processYearCell 0 [(5, none, none)] = (366, 366) ∧
    fuseSeries [(5, none, none)] = [(5, (none : Cell))] ∧
    snowFreeMask 0 = 1 :=
  ⟨(allMasked_year_sentinels 0 [(5, none, none)] (by decide)).2.1,
   (allMasked_year_sentinels 0 [(5, none, none)] (by decide)).1,
   (allMasked_year_sentinels 0 [(5, none, none)] (by decide)).2.2.2⟩

/-- Claim C8: the final mask is the per-cell logical AND of the
land/water validity raster (`datamask.eq(1)`) and `snowFreeMask`
(`snowFreeMedian.lt(306)`), and masking the trend raster with it keeps a
cell exactly when both conditions hold, discarding all other cells. -/
theorem finalMask_and_restricts (datamask median v : Int) :
    (finalMask datamask median = 1 ↔
      (waterMask datamask = 1 ∧ snowFreeMask median = 1)) ∧
    (waterMask datamask = 1 ↔ datamask = 1) ∧
    (snowFreeMask median = 1 ↔ median < 306) ∧
    applyMask (finalMask datamask median) v
      = (if datamask = 1 ∧ median < 306 then some v else none) := by
  unfold finalMask waterMask snowFreeMask applyMask
  by_cases h1 : datamask = 1 <;> by_cases h2 : median < 306 <;>
    simp [h1, h2]

/-- Claim C9: the Stream Fuser only changes cell values and masks — the
fused image carries the `system:time_start` of the primary (sensor A)
input unchanged, and its grid is exactly the cell-wise `maxVal` of the
two bands. -/
theorem maxVal_preserves_time (a b : EEImage) :
    (maxValImg (concatBands a b)).time = a.time ∧
    (maxValImg (concatBands a b)).cells = List.zipWith maxVal a.cells b.cells :=
  ⟨rfl, rfl⟩

/-- Claim C10: the season length `difference melt acc = acc − melt` is
non-negative for every per-cell year column: with qualifying days acc is
the maximum and melt the minimum of the same DOY set, and with none both
are 366, giving 0. -/
theorem snowFree_nonneg (xs : List Cell) :
    0 ≤ difference (snowMeltAcc xs).1 (snowMeltAcc xs).2 := by
  have h := snowMeltAcc_fst_le_snd xs
  unfold difference
  omega

end MCD10A1
